import Mathlib

/-!
# resume-ai-backend: the two request handlers of `server.js`

A shallow embedding of `app.post("/api/analyze")` and `app.post("/api/download")`.

The handlers are glue around library calls, so the embedding is a small effect
language: a handler is a function from the trace of effects performed so far to
an outcome (normal completion or a thrown error) and the extended trace.  The
results of the library calls (`fs`, `pdf-parse`, the OpenAI client,
`JSON.parse`, `docx`) are not part of the repository; they are read from a
`World`, over which every theorem is universally quantified.  A handler that
throws without catching ends with the outcome `Except.error` and sends no
response of its own.
-/

namespace ResumeAI

/-! ## Values -/

/-- JavaScript values as the handlers see them.  A number is carried by its
canonical decimal rendering (what `String(n)` returns), which is all the
handlers ever observe of a number: its truthiness and its rendering inside a
template literal.  Both zeros render as `"0"`.  An `object` is an ordinary object
(what `JSON.parse` and `express.json()` build); a `bare` object has no
prototype (`Object.create(null)`, what multer builds for a bracketed field name
such as `occupation[x]`). -/
inductive JSValue where
  | undefined
  | null
  | bool (b : Bool)
  | number (text : String)
  | string (s : String)
  | array (items : List JSValue)
  | object (fields : List (String × JSValue))
  | bare (fields : List (String × JSValue))

/-- Thrown values: an `Error` object, of which the handler reads `message`. -/
structure JSError where
  message : String

/-- Whether a field list has an own property `key`. -/
def hasField (fields : List (String × JSValue)) (key : String) : Bool :=
  fields.any (fun kv => kv.1 == key)

mutual
/-- The string conversion applied by a template literal (`ToString`).  An
ordinary object converts through the inherited `toString`, unless an own
property `toString` hides it: that one is data, not a function, and the
conversion throws a `TypeError`.  A prototype-less object has no `toString` at
all, so its conversion throws as well. -/
def JSValue.toStr : JSValue → Except JSError String
  | .undefined => .ok "undefined"
  | .null => .ok "null"
  | .bool true => .ok "true"
  | .bool false => .ok "false"
  | .number text => .ok text
  | .string s => .ok s
  | .array items => JSValue.joinItems items
  | .object fields =>
      if hasField fields "toString" then
        .error ⟨"Cannot convert object to primitive value"⟩
      else
        .ok "[object Object]"
  | .bare _ => .error ⟨"Cannot convert object to primitive value"⟩
/-- The comma join of `Array.prototype.toString`; `null` and `undefined`
elements render as the empty string, the others through `ToString`. -/
def JSValue.joinItems : List JSValue → Except JSError String
  | [] => .ok ""
  | [.undefined] => .ok ""
  | [.null] => .ok ""
  | [x] => JSValue.toStr x
  | .undefined :: xs =>
      match JSValue.joinItems xs with
      | .ok tail => .ok ("," ++ tail)
      | .error e => .error e
  | .null :: xs =>
      match JSValue.joinItems xs with
      | .ok tail => .ok ("," ++ tail)
      | .error e => .error e
  | x :: xs =>
      match JSValue.toStr x with
      | .error e => .error e
      | .ok head =>
        match JSValue.joinItems xs with
        | .ok tail => .ok (head ++ "," ++ tail)
        | .error e => .error e
end

/-- JavaScript truthiness (`ToBoolean`), as used by `!x` and `x || y`. -/
def JSValue.truthy : JSValue → Bool
  | .undefined => false
  | .null => false
  | .bool b => b
  | .number text => !(text == "0" || text == "NaN")
  | .string s => !(s == "")
  | .array _ => true
  | .object _ => true
  | .bare _ => true

/-- The value of `a || b`. -/
def JSValue.orElse (a b : JSValue) : JSValue :=
  if a.truthy then a else b

/-- Own-property lookup in the field list of an object; a missing key reads as
`undefined`. -/
def lookupField (fields : List (String × JSValue)) (key : String) : JSValue :=
  match fields with
  | [] => .undefined
  | (k, v) :: rest => if k = key then v else lookupField rest key

/-- Property read `v.key`, for keys that are not defined on a prototype (all
keys read by the handlers are of this kind).  Reading a property of `null` or
`undefined` throws a `TypeError`. -/
def JSValue.getProp (v : JSValue) (key : String) : Except JSError JSValue :=
  match v with
  | .undefined =>
      .error ⟨"Cannot read properties of undefined (reading \x27" ++ key ++ "\x27)"⟩
  | .null =>
      .error ⟨"Cannot read properties of null (reading \x27" ++ key ++ "\x27)"⟩
  | .object fields => .ok (lookupField fields key)
  | .bare fields => .ok (lookupField fields key)
  | _ => .ok .undefined

/-! ## Requests, responses and the library boundary -/

/-- The file object multer attaches to the request (`req.file`): where the
upload was stored and its declared media type. -/
structure UploadedFile where
  path : String
  mimetype : String

/-- An Analyze request after `upload.single("resume")`: `req.file` (absent when
no `resume` field was sent) and `req.body.occupation`: `undefined` when the
field is missing, a string for a plain field, an array for a repeated one, a
prototype-less object for a bracketed name. -/
structure AnalyzeRequest where
  file : Option UploadedFile
  occupation : JSValue

/-- A Download request after `express.json()`: the fields of the object
`req.body`. -/
structure DownloadRequest where
  body : List (String × JSValue)

/-- One entry of `messages` in the chat-completion request. -/
structure ChatMessage where
  role : String
  content : String

/-- The argument of `openai.chat.completions.create`; `response_format` holds
the `type` of the response-format object. -/
structure ChatRequest where
  model : String
  response_format : String
  messages : List ChatMessage

/-- The chat completion the client resolves with: for each entry of `choices`
its `message.content`, `none` standing for `null`. -/
structure ChatCompletion where
  choices : List (Option String)

/-- The object `pdfParse` resolves with, of which the handler reads `text`. -/
structure PdfData where
  text : String

/-- A paragraph built by `new Paragraph(x)`. -/
structure Paragraph where
  text : JSValue

/-- One entry of `sections` of a document. -/
structure DocSection where
  children : List Paragraph

/-- A document built by `new Document({ sections })`. -/
structure Document where
  sections : List DocSection

/-- What a response carries: the argument of `res.json`, or the buffer given
to `res.send`. -/
inductive Body where
  | json (value : JSValue)
  | buffer (bytes : List Nat)

/-- A response as the handler determines it: status code, the headers the
handler set with `res.setHeader`, and the body. -/
structure Response where
  status : Nat
  headers : List (String × String)
  body : Body

/-- The observable actions of a handler, in program order. -/
inductive Effect where
  | readFileSync (path : String) (encoding : Option String)
  | pdfParse (data : List Nat)
  | create (request : ChatRequest)
  | unlinkSync (path : String)
  | consoleError (err : JSError)
  | newParagraph (text : JSValue)
  | newDocument (doc : Document)
  | toBuffer (doc : Document)
  | setHeader (name value : String)
  | respond (r : Response)

/-- The results of the library calls the handlers make.  A call either returns
or throws (`Except.error`). -/
structure World where
  readFileSync : String → Except JSError (List Nat)
  decodeUtf8 : List Nat → String
  pdfParse : List Nat → Except JSError PdfData
  create : ChatRequest → Except JSError ChatCompletion
  JSON_parse : String → Except JSError JSValue
  unlinkSync : String → Except JSError Unit
  newParagraph : JSValue → Except JSError Unit
  newDocument : Document → Except JSError Unit
  toBuffer : Document → Except JSError (List Nat)

/-! ## Handler computations -/

/-- The trace of effects performed so far. -/
abbrev Trace := List Effect

/-- A handler computation: from the trace so far to an outcome and the
extended trace.  `Except.error e` is a thrown `e`. -/
def Js (α : Type) : Type := Trace → Except JSError α × Trace

/-- Completion with a value, no effect. -/
def Js.pure {α : Type} (a : α) : Js α := fun t => (.ok a, t)

/-- Sequencing: a throw in the first computation skips the second. -/
def Js.bind {α β : Type} (m : Js α) (f : α → Js β) : Js β := fun t =>
  match m t with
  | (.ok a, t1) => f a t1
  | (.error e, t1) => (.error e, t1)

instance : Monad Js where
  pure := Js.pure
  bind := Js.bind

/-- Record an effect. -/
def emit (e : Effect) : Js Unit := fun t => (.ok (), t ++ [e])

/-- A library call: recorded, then it returns or throws as the world says. -/
def call {α : Type} (e : Effect) (result : Except JSError α) : Js α := fun t =>
  (result, t ++ [e])

/-- A pure operation that may throw. -/
def attempt {α : Type} (result : Except JSError α) : Js α := fun t => (result, t)

/-- The statement `try { body } catch (err) { handler }`. -/
def tryCatch {α : Type} (body : Js α) (handler : JSError → Js α) : Js α := fun t =>
  match body t with
  | (.ok a, t1) => (.ok a, t1)
  | (.error e, t1) => handler e t1

/-- Whether an effect is a response. -/
def Effect.isRespond : Effect → Bool
  | .respond _ => true
  | _ => false

/-- One `res.setHeader(name, value)` applied to the headers set so far: a
header already set is replaced in place, a new one is added at the end. -/
def setHeaderIn (hs : List (String × String)) (name value : String) :
    List (String × String) :=
  if hs.any (fun h => h.1 == name) then
    hs.map (fun h => if h.1 == name then (name, value) else h)
  else
    hs ++ [(name, value)]

/-- The headers in force after the `res.setHeader` calls of a trace. -/
def pendingHeaders (t : Trace) : List (String × String) :=
  t.foldl (fun hs e =>
    match e with
    | .setHeader name value => setHeaderIn hs name value
    | _ => hs) []

/-- The characters Node accepts in a header value: tab, U+0020 to U+007E and
U+0080 to U+00FF. -/
def validHeaderChar (c : Char) : Bool :=
  c.toNat == 9 || (32 ≤ c.toNat && c.toNat ≤ 126) || (128 ≤ c.toNat && c.toNat ≤ 255)

/-- Whether Node accepts a string as a header value. -/
def validHeaderValue (value : String) : Bool :=
  value.toList.all validHeaderChar

/-- The call `res.setHeader(name, value)` for a valid header name.  Node throws
`ERR_HTTP_HEADERS_SENT` once a response has gone out and `ERR_INVALID_CHAR` for
a value with a character it does not accept; otherwise the header is set. -/
def setHeader (name value : String) : Js Unit := fun t =>
  if t.any Effect.isRespond then
    (.error ⟨"Cannot set headers after they are sent to the client"⟩, t)
  else if validHeaderValue value then
    (.ok (), t ++ [.setHeader name value])
  else
    (.error ⟨"Invalid character in header content [\"" ++ name ++ "\"]"⟩, t)

/-- The call `res.status(status).json(v)`, `res.json(v)` or `res.send(buf)`:
the response goes out with the headers set so far.  Express accepts one
response per request; a further call is recorded and throws
`ERR_HTTP_HEADERS_SENT`. -/
def send (status : Nat) (body : Body) : Js Unit := fun t =>
  if t.any Effect.isRespond then
    (.error ⟨"Cannot set headers after they are sent to the client"⟩,
      t ++ [.respond ⟨status, pendingHeaders t, body⟩])
  else
    (.ok (), t ++ [.respond ⟨status, pendingHeaders t, body⟩])

/-! ## The evaluation prompt (`server.js`, lines 44-81) -/

/-- The system message content. -/
def systemPersona : String :=
  "You are an expert HR recruiter and resume evaluator."

/-- The template text from the opening backtick up to the rubric heading. -/
def promptIntro : String :=
  "\n" ++
  "          You will receive a candidate\x27s resume text and the target occupation.\n" ++
  "          Compare the resume to the skills, experience, and keywords typically required for that occupation.\n" ++
  "\n" ++
  "          STRICT SCORING RUBRIC:\n"

/-- The rubric block of the template: each band line on its own indented line. -/
def promptRubric : String :=
  "          - 90-100: Resume perfectly matches occupation with strong, measurable achievements.\n" ++
  "          - 75-89: Resume is good but missing 1-2 key skills or measurable results.\n" ++
  "          - 50-74: Resume shows some relevant experience but lacks multiple important requirements.\n" ++
  "          - 25-49: Resume has little relevant experience or skills for the occupation.\n" ++
  "          - 0-24: Resume is unrelated to the occupation.\n"

/-- The template text that describes the JSON reply, up to the occupation
label. -/
def promptSchema : String :=
  "\n" ++
  "          Respond ONLY in valid JSON format:\n" ++
  "          \x7b\n" ++
  "            \"score\": number, // integer 0-100\n" ++
  "            \"summary\": string,\n" ++
  "            \"strengths\": string[],\n" ++
  "            \"weaknesses\": string[],\n" ++
  "            \"missing_keywords\": string[],\n" ++
  "            \"rewrite_suggestions\": [\n" ++
  "              \x7b\n" ++
  "                \"issue\": string,\n" ++
  "                \"original\": string,\n" ++
  "                \"improved\": string\n" ++
  "              \x7d\n" ++
  "            ]\n" ++
  "          \x7d\n" ++
  "\n" ++
  "          "

/-- The text of the template literal of lines 49-79 once its two
interpolations are strings. -/
def userPromptText (occupationText resumeText : String) : String :=
  promptIntro ++ promptRubric ++ promptSchema ++
  "Occupation: " ++ occupationText ++ "\n" ++
  "          Resume:\n" ++
  "          " ++ resumeText ++ "\n" ++
  "        "

/-- The user message: the template literal of lines 49-79.  Its first
interpolation converts `req.body.occupation` to a string, which may throw; the
second is `resumeText`, a string. -/
def userPrompt (occupation : JSValue) (resumeText : String) : Except JSError String :=
  match occupation.toStr with
  | .ok occupationText => .ok (userPromptText occupationText resumeText)
  | .error e => .error e

/-- The argument object of `openai.chat.completions.create`; building it
evaluates the template literal. -/
def chatRequest (occupation : JSValue) (resumeText : String) : Except JSError ChatRequest :=
  match userPrompt occupation resumeText with
  | .ok content =>
      .ok { model := "gpt-4o-mini"
            response_format := "json_object"
            messages :=
              [ { role := "system", content := systemPersona },
                { role := "user", content := content } ] }
  | .error e => .error e

/-! ## `POST /api/analyze` (`server.js`, lines 20-106) -/

/-- The expression `gptResponse.choices[0].message.content`; with no first
choice the read of `message` throws a `TypeError`. -/
def firstContent (gptResponse : ChatCompletion) : Except JSError (Option String) :=
  match gptResponse.choices with
  | [] => .error ⟨"Cannot read properties of undefined (reading \x27message\x27)"⟩
  | content :: _ => .ok content

/-- The string `JSON.parse` works on: its argument converted to a string, so
`null` becomes `"null"`. -/
def parseArgument (content : Option String) : String :=
  match content with
  | some s => s
  | none => "null"

/-- The body of the `try` block. -/
def analyzeTry (w : World) (req : AnalyzeRequest) : Js Unit := do
  match req.file with
  | none =>
    send 400 (.json (.object [("ok", .bool false), ("error", .string "No file uploaded")]))
  | some file =>
    let mut resumeText := ""
    if file.mimetype = "application/pdf" then
      let dataBuffer ← call (.readFileSync file.path none) (w.readFileSync file.path)
      let parsed ← call (.pdfParse dataBuffer) (w.pdfParse dataBuffer)
      resumeText := parsed.text
    else if file.mimetype = "text/plain" then
      resumeText ← call (.readFileSync file.path (some "utf8"))
        ((w.readFileSync file.path).map w.decodeUtf8)
    else
      send 400 (.json (.object
        [("ok", .bool false), ("error", .string "Only PDF/TXT supported for now")]))
      return
    let request ← attempt (chatRequest req.occupation resumeText)
    let gptResponse ← call (.create request) (w.create request)
    let content ← attempt (firstContent gptResponse)
    let parsedAnalysis ← attempt (w.JSON_parse (parseArgument content))
    let score ← attempt (parsedAnalysis.getProp "score")
    let summary ← attempt (parsedAnalysis.getProp "summary")
    let strengths ← attempt (parsedAnalysis.getProp "strengths")
    let weaknesses ← attempt (parsedAnalysis.getProp "weaknesses")
    let missing_keywords ← attempt (parsedAnalysis.getProp "missing_keywords")
    let rewrite_suggestions ← attempt (parsedAnalysis.getProp "rewrite_suggestions")
    send 200 (.json (.object
      [ ("ok", .bool true),
        ("score", score),
        ("analysis", .object
          [ ("summary", summary),
            ("strengths", strengths),
            ("weaknesses", weaknesses),
            ("missing_keywords", missing_keywords),
            ("rewrite_suggestions", rewrite_suggestions) ]),
        ("updatedResumeText", .string resumeText),
        ("suggestedFilename", .string "Improved_Resume") ]))
    call (.unlinkSync file.path) (w.unlinkSync file.path)

/-- The `catch` block. -/
def analyzeCatch (err : JSError) : Js Unit := do
  emit (.consoleError err)
  send 500 (.json (.object [("ok", .bool false), ("error", .string err.message)]))

/-- The handler of `POST /api/analyze`. -/
def analyze (w : World) (req : AnalyzeRequest) : Js Unit :=
  tryCatch (analyzeTry w req) analyzeCatch

/-! ## `POST /api/download` (`server.js`, lines 109-124) -/

/-- The handler of `POST /api/download`.  It has no `try`: a throw ends the
handler. -/
def download (w : World) (req : DownloadRequest) : Js Unit := do
  let updatedText := lookupField req.body "updatedText"
  let filename := lookupField req.body "filename"
  if !updatedText.truthy then
    send 400 (.json (.object [("error", .string "No text provided")]))
    return
  call (.newParagraph updatedText) (w.newParagraph updatedText)
  let doc : Document := { sections := [{ children := [{ text := updatedText }] }] }
  call (.newDocument doc) (w.newDocument doc)
  let buffer ← call (.toBuffer doc) (w.toBuffer doc)
  let name ← attempt (filename.orElse (.string "Improved_Resume")).toStr
  setHeader "Content-Disposition" ("attachment; filename=\"" ++ name ++ ".docx\"")
  setHeader "Content-Type"
    "application/vnd.openxmlformats-officedocument.wordprocessingml.document"
  send 200 (.buffer buffer)

/-! ## Reading a run -/

/-- The trace of a handler run from the empty trace. -/
def traceOf (m : Js Unit) : Trace := (m []).2

/-- The responses of a trace, in order. -/
def responses : Trace → List Response
  | [] => []
  | .respond r :: rest => r :: responses rest
  | _ :: rest => responses rest

/-- The response the client receives: the first one. -/
def sentResponse (t : Trace) : Option Response := (responses t).head?

/-- The requests given to `openai.chat.completions.create`, in order. -/
def createCalls : Trace → List ChatRequest
  | [] => []
  | .create request :: rest => request :: createCalls rest
  | _ :: rest => createCalls rest

/-- The paths given to `fs.readFileSync`, in order. -/
def readCalls : Trace → List String
  | [] => []
  | .readFileSync path _ :: rest => path :: readCalls rest
  | _ :: rest => readCalls rest

/-- The paths given to `fs.unlinkSync`, in order. -/
def unlinkCalls : Trace → List String
  | [] => []
  | .unlinkSync path :: rest => path :: unlinkCalls rest
  | _ :: rest => unlinkCalls rest

/-- The documents built with `new Document` or given to `Packer.toBuffer`, in
order. -/
def builtDocuments : Trace → List Document
  | [] => []
  | .newDocument doc :: rest => doc :: builtDocuments rest
  | .toBuffer doc :: rest => doc :: builtDocuments rest
  | _ :: rest => builtDocuments rest

/-- Whether the file at `path` has been deleted in the course of a trace: an
`fs.unlinkSync(path)` call was made and returned. -/
def fileDeleted (w : World) (t : Trace) (path : String) : Bool :=
  (unlinkCalls t).any (fun p =>
    p == path &&
      (match w.unlinkSync p with
       | .ok _ => true
       | .error _ => false))

/-- The field `key` of a JSON response body (`undefined` when the body is not
an object or has no such field). -/
def Response.field (r : Response) (key : String) : JSValue :=
  match r.body with
  | .json (.object fields) => lookupField fields key
  | _ => .undefined

/-- The text extraction of lines 29-37, read as a function of the world: what
`resumeText` becomes for a file of a supported media type, or the error thrown
on the way. -/
def extractOutcome (w : World) (file : UploadedFile) : Except JSError String :=
  if file.mimetype = "application/pdf" then
    match w.readFileSync file.path with
    | .ok dataBuffer => (w.pdfParse dataBuffer).map PdfData.text
    | .error e => .error e
  else
    (w.readFileSync file.path).map w.decodeUtf8

/-! ## Concrete worlds and requests -/

/-- A reply object with every field of the evaluation result. -/
def sampleReply : List (String × JSValue) :=
  [ ("score", .number "92"),
    ("summary", .string "Strong match"),
    ("strengths", .array [.string "Go"]),
    ("weaknesses", .array []),
    ("missing_keywords", .array [.string "Kubernetes"]),
    ("rewrite_suggestions", .array
      [.object [("issue", .string "vague"), ("original", .string "led a team"),
        ("improved", .string "led a 10-person team")]]) ]

/-- A world in which every library call succeeds: the upload holds the bytes
of `hi`, and the scoring service answers with `sampleReply`. -/
def sampleWorld : World :=
  { readFileSync := fun _ => .ok [104, 105]
    decodeUtf8 := fun bytes => String.mk (bytes.map Char.ofNat)
    pdfParse := fun _ => .ok { text := "hi" }
    create := fun _ => .ok { choices := [some "reply"] }
    JSON_parse := fun _ => .ok (.object sampleReply)
    unlinkSync := fun _ => .ok ()
    newParagraph := fun _ => .ok ()
    newDocument := fun _ => .ok ()
    toBuffer := fun _ => .ok [80, 75, 3, 4] }

/-- The scoring service answers with a score of 150. -/
def overScoreWorld : World :=
  { sampleWorld with JSON_parse := fun _ => .ok (.object [("score", .number "150")]) }

/-- The scoring service answers with an object that has no `score`. -/
def noScoreWorld : World :=
  { sampleWorld with JSON_parse := fun _ => .ok (.object [("summary", .string "fine")]) }

/-- The upload cannot be read. -/
def unreadableWorld : World :=
  { sampleWorld with readFileSync := fun _ => .error ⟨"EACCES: permission denied"⟩ }

/-- The upload is not a readable PDF document. -/
def badPdfWorld : World :=
  { sampleWorld with pdfParse := fun _ => .error ⟨"Invalid PDF structure"⟩ }

/-- The scoring call fails. -/
def scoringDownWorld : World :=
  { sampleWorld with create := fun _ => .error ⟨"Connection error."⟩ }

/-- The scoring reply is not JSON. -/
def proseReplyWorld : World :=
  { sampleWorld with JSON_parse := fun _ => .error ⟨"Unexpected token S in JSON at position 0"⟩ }

/-- Deleting the upload fails. -/
def unlinkFailsWorld : World :=
  { sampleWorld with unlinkSync := fun _ => .error ⟨"EPERM: operation not permitted, unlink"⟩ }

/-- A plain-text upload for the occupation `Backend Engineer`. -/
def textRequest : AnalyzeRequest :=
  { file := some { path := "uploads/3f2a", mimetype := "text/plain" }
    occupation := .string "Backend Engineer" }

/-- A PDF upload. -/
def pdfRequest : AnalyzeRequest :=
  { file := some { path := "uploads/77c1", mimetype := "application/pdf" }
    occupation := .string "Backend Engineer" }

/-- An upload of an image. -/
def imageRequest : AnalyzeRequest :=
  { file := some { path := "uploads/9b0d", mimetype := "image/png" }
    occupation := .string "Backend Engineer" }

/-- A request without the `resume` field. -/
def emptyRequest : AnalyzeRequest :=
  { file := none, occupation := .string "Backend Engineer" }

/-- The Download body of the specification scenario. -/
def namedDownload : DownloadRequest :=
  { body := [("updatedText", .string "Hello world"), ("filename", .string "MyResume")] }

/-- A Download body whose filename holds a line break. -/
def lineBreakDownload : DownloadRequest :=
  { body := [("updatedText", .string "Hello world"), ("filename", .string "a\nb")] }

/-- An upload whose occupation was sent under the field name `occupation[x]`. -/
def bracketRequest : AnalyzeRequest :=
  { file := some { path := "uploads/3f2a", mimetype := "text/plain" }
    occupation := .bare [("x", .string "Backend Engineer")] }

/-- A Download body whose `updatedText` is the number zero. -/
def zeroDownload : DownloadRequest :=
  { body := [("updatedText", .number "0")] }

/-! # Theorems -/

/-! ## Running a computation -/

theorem run_bind {α β : Type} (m : Js α) (f : α → Js β) (t : Trace) :
    (m >>= f) t = (match m t with
      | (.ok a, t1) => f a t1
      | (.error e, t1) => (.error e, t1)) := rfl

theorem run_pure {α : Type} (a : α) (t : Trace) : (pure a : Js α) t = (.ok a, t) := rfl

/-! ## `POST /api/analyze` -/

/-- C8: a request without a file is answered 400 `No file uploaded`; nothing
is read and the scoring client is not called, whatever the occupation. -/
theorem analyze_no_file (w : World) (req : AnalyzeRequest) (hfile : req.file = none) :
    sentResponse (traceOf (analyze w req)) = some
        { status := 400, headers := [],
          body := .json (.object [("ok", .bool false), ("error", .string "No file uploaded")]) } ∧
      (responses (traceOf (analyze w req))).length = 1 ∧
      readCalls (traceOf (analyze w req)) = [] ∧
      createCalls (traceOf (analyze w req)) = [] := by
  simp [traceOf, analyze, analyzeTry, hfile, tryCatch, send, pendingHeaders, sentResponse,
    responses, readCalls, createCalls]

theorem analyze_no_file_witness :
    emptyRequest.file = none ∧
      sentResponse (traceOf (analyze sampleWorld emptyRequest)) = some
        { status := 400, headers := [],
          body := .json (.object [("ok", .bool false), ("error", .string "No file uploaded")]) } :=
  ⟨rfl, (analyze_no_file sampleWorld emptyRequest rfl).1⟩

/-- C1: a file whose media type is neither `application/pdf` nor `text/plain`
is answered 400 `Only PDF/TXT supported for now`, and the scoring client is
called zero times. -/
theorem analyze_unsupported_type (w : World) (req : AnalyzeRequest) (file : UploadedFile)
    (hfile : req.file = some file)
    (hpdf : file.mimetype ≠ "application/pdf") (htxt : file.mimetype ≠ "text/plain") :
    sentResponse (traceOf (analyze w req)) = some
        { status := 400, headers := [],
          body := .json (.object
            [("ok", .bool false), ("error", .string "Only PDF/TXT supported for now")]) } ∧
      (createCalls (traceOf (analyze w req))).length = 0 := by
  simp [traceOf, analyze, analyzeTry, hfile, hpdf, htxt, tryCatch, send, pendingHeaders,
    sentResponse, responses, createCalls, run_bind, run_pure]

theorem analyze_unsupported_type_witness :
    imageRequest.file = some { path := "uploads/9b0d", mimetype := "image/png" } ∧
      sentResponse (traceOf (analyze sampleWorld imageRequest)) = some
        { status := 400, headers := [],
          body := .json (.object
            [("ok", .bool false), ("error", .string "Only PDF/TXT supported for now")]) } ∧
      (createCalls (traceOf (analyze sampleWorld imageRequest))).length = 0 :=
  ⟨rfl, analyze_unsupported_type sampleWorld imageRequest
    { path := "uploads/9b0d", mimetype := "image/png" } rfl (by decide) (by decide)⟩

/-- C2: for a `text/plain` upload and a reply of the scoring client, given to
the request the handler built, whose content parses as a JSON object, the
handler answers 200 with `ok = true`, the six result fields taken from the
same-named fields of the parsed reply, `updatedResumeText` the UTF-8 text of
the upload, and `suggestedFilename` equal to `Improved_Resume`. -/
theorem analyze_text_success (w : World) (req : AnalyzeRequest) (file : UploadedFile)
    (bytes : List Nat) (request : ChatRequest) (reply : ChatCompletion) (content : String)
    (rest : List (Option String)) (fields : List (String × JSValue))
    (hfile : req.file = some file) (hmime : file.mimetype = "text/plain")
    (hread : w.readFileSync file.path = .ok bytes)
    (hrequest : chatRequest req.occupation (w.decodeUtf8 bytes) = .ok request)
    (hcreate : w.create request = .ok reply)
    (hchoice : reply.choices = some content :: rest)
    (hparse : w.JSON_parse content = .ok (.object fields)) :
    sentResponse (traceOf (analyze w req)) = some
      { status := 200, headers := [],
        body := .json (.object
          [ ("ok", .bool true),
            ("score", lookupField fields "score"),
            ("analysis", .object
              [ ("summary", lookupField fields "summary"),
                ("strengths", lookupField fields "strengths"),
                ("weaknesses", lookupField fields "weaknesses"),
                ("missing_keywords", lookupField fields "missing_keywords"),
                ("rewrite_suggestions", lookupField fields "rewrite_suggestions") ]),
            ("updatedResumeText", .string (w.decodeUtf8 bytes)),
            ("suggestedFilename", .string "Improved_Resume") ]) } := by
  cases hU : w.unlinkSync file.path <;>
  simp [traceOf, analyze, analyzeTry, analyzeCatch, emit, tryCatch, send, pendingHeaders,
    run_bind, run_pure, call, attempt, Except.map, Effect.isRespond, hfile, hmime, hread,
    hrequest, hcreate, firstContent, hchoice, parseArgument, hparse, JSValue.getProp,
    sentResponse, responses, hU]

theorem analyze_text_success_witness :
    sentResponse (traceOf (analyze sampleWorld textRequest)) = some
      { status := 200, headers := [],
        body := .json (.object
          [ ("ok", .bool true),
            ("score", .number "92"),
            ("analysis", .object
              [ ("summary", .string "Strong match"),
                ("strengths", .array [.string "Go"]),
                ("weaknesses", .array []),
                ("missing_keywords", .array [.string "Kubernetes"]),
                ("rewrite_suggestions", .array
                  [.object [("issue", .string "vague"), ("original", .string "led a team"),
                    ("improved", .string "led a 10-person team")]]) ]),
            ("updatedResumeText", .string "hi"),
            ("suggestedFilename", .string "Improved_Resume") ]) } :=
  analyze_text_success sampleWorld textRequest { path := "uploads/3f2a", mimetype := "text/plain" }
    [104, 105]
    { model := "gpt-4o-mini"
      response_format := "json_object"
      messages :=
        [ { role := "system", content := systemPersona },
          { role := "user", content := userPromptText "Backend Engineer" "hi" } ] }
    { choices := [some "reply"] } "reply" [] sampleReply rfl rfl rfl rfl rfl rfl rfl

/-- C7: for a supported file, when the text extraction, the building of the
scoring request, the scoring call, or the parsing of the scoring reply throws
`e`, the handler answers 500 with `ok = false` and `error = e.message`; that is
its only response, so no 200 is sent. -/
theorem analyze_failure_is_500 (w : World) (req : AnalyzeRequest) (file : UploadedFile)
    (e : JSError) (hfile : req.file = some file)
    (hmime : file.mimetype = "application/pdf" ∨ file.mimetype = "text/plain")
    (hfail : extractOutcome w file = .error e ∨
      ∃ text, extractOutcome w file = .ok text ∧
        (chatRequest req.occupation text = .error e ∨
          ∃ request, chatRequest req.occupation text = .ok request ∧
            (w.create request = .error e ∨
              ∃ reply content, w.create request = .ok reply ∧
                firstContent reply = .ok content ∧
                w.JSON_parse (parseArgument content) = .error e))) :
    responses (traceOf (analyze w req)) =
      [ { status := 500, headers := [],
          body := .json (.object [("ok", .bool false), ("error", .string e.message)]) } ] := by
  rcases hmime with hm | hm
  · cases hr : w.readFileSync file.path with
    | error e1 =>
      simp [extractOutcome, hm, hr] at hfail
      subst hfail
      simp [traceOf, analyze, analyzeTry, analyzeCatch, emit, tryCatch, send, pendingHeaders,
        run_bind, run_pure, call, attempt, Except.map, Effect.isRespond, hfile, hm, hr,
        responses]
    | ok bytes =>
      cases hp : w.pdfParse bytes with
      | error e1 =>
        simp [extractOutcome, hm, hr, hp, Except.map] at hfail
        subst hfail
        simp [traceOf, analyze, analyzeTry, analyzeCatch, emit, tryCatch, send, pendingHeaders,
          run_bind, run_pure, call, attempt, Except.map, Effect.isRespond, hfile, hm, hr, hp,
          responses]
      | ok parsed =>
        simp [extractOutcome, hm, hr, hp, Except.map] at hfail
        rcases hfail with hq | ⟨request, hq, hc | ⟨reply, hc, content, hfc, hj⟩⟩
        · simp [traceOf, analyze, analyzeTry, analyzeCatch, emit, tryCatch, send, pendingHeaders,
            run_bind, run_pure, call, attempt, Except.map, Effect.isRespond, hfile, hm, hr, hp,
            hq, responses]
        · simp [traceOf, analyze, analyzeTry, analyzeCatch, emit, tryCatch, send, pendingHeaders,
            run_bind, run_pure, call, attempt, Except.map, Effect.isRespond, hfile, hm, hr, hp,
            hq, hc, responses]
        · simp [traceOf, analyze, analyzeTry, analyzeCatch, emit, tryCatch, send, pendingHeaders,
            run_bind, run_pure, call, attempt, Except.map, Effect.isRespond, hfile, hm, hr, hp,
            hq, hc, hfc, hj, responses]
  · cases hr : w.readFileSync file.path with
    | error e1 =>
      simp [extractOutcome, hm, hr, Except.map] at hfail
      subst hfail
      simp [traceOf, analyze, analyzeTry, analyzeCatch, emit, tryCatch, send, pendingHeaders,
        run_bind, run_pure, call, attempt, Except.map, Effect.isRespond, hfile, hm, hr,
        responses]
    | ok bytes =>
      simp [extractOutcome, hm, hr, Except.map] at hfail
      rcases hfail with hq | ⟨request, hq, hc | ⟨reply, hc, content, hfc, hj⟩⟩
      · simp [traceOf, analyze, analyzeTry, analyzeCatch, emit, tryCatch, send, pendingHeaders,
          run_bind, run_pure, call, attempt, Except.map, Effect.isRespond, hfile, hm, hr, hq,
          responses]
      · simp [traceOf, analyze, analyzeTry, analyzeCatch, emit, tryCatch, send, pendingHeaders,
          run_bind, run_pure, call, attempt, Except.map, Effect.isRespond, hfile, hm, hr, hq, hc,
          responses]
      · simp [traceOf, analyze, analyzeTry, analyzeCatch, emit, tryCatch, send, pendingHeaders,
          run_bind, run_pure, call, attempt, Except.map, Effect.isRespond, hfile, hm, hr, hq, hc,
          hfc, hj, responses]

theorem analyze_failure_is_500_witness :
    responses (traceOf (analyze scoringDownWorld textRequest)) =
      [ { status := 500, headers := [],
          body := .json (.object [("ok", .bool false), ("error", .string "Connection error.")]) } ] :=
  analyze_failure_is_500 scoringDownWorld textRequest
    { path := "uploads/3f2a", mimetype := "text/plain" } ⟨"Connection error."⟩ rfl
    (Or.inr rfl)
    (Or.inr ⟨"hi", rfl, Or.inr
      ⟨{ model := "gpt-4o-mini"
         response_format := "json_object"
         messages :=
           [ { role := "system", content := systemPersona },
             { role := "user", content := userPromptText "Backend Engineer" "hi" } ] },
        rfl, Or.inl rfl⟩⟩)

/-- C3, as stated, fails: a reply with `score` 150 and a reply without `score`
are both answered with status 200, the score passed through as it came. -/
theorem analyze_accepts_any_score :
    overScoreWorld.JSON_parse "reply" = .ok (.object [("score", .number "150")]) ∧
      (sentResponse (traceOf (analyze overScoreWorld textRequest))).map
        (fun r => (r.status, r.field "score")) = some (200, .number "150") ∧
      noScoreWorld.JSON_parse "reply" = .ok (.object [("summary", .string "fine")]) ∧
      (sentResponse (traceOf (analyze noScoreWorld textRequest))).map
        (fun r => (r.status, r.field "score")) = some (200, .undefined) :=
  ⟨rfl, rfl, rfl, rfl⟩

/-- C3, amended: the handler does not validate the reply.  For a supported
file whose text was extracted and a reply of the scoring client whose content
parses as a JSON object, whatever its `score` field (absent and out-of-range
values included), the handler answers 200 and the response carries the reply's
`score` unchanged. -/
theorem analyze_passes_score_through (w : World) (req : AnalyzeRequest) (file : UploadedFile)
    (text : String) (request : ChatRequest) (reply : ChatCompletion) (content : String)
    (rest : List (Option String)) (fields : List (String × JSValue))
    (hfile : req.file = some file)
    (hmime : file.mimetype = "application/pdf" ∨ file.mimetype = "text/plain")
    (hextract : extractOutcome w file = .ok text)
    (hrequest : chatRequest req.occupation text = .ok request)
    (hcreate : w.create request = .ok reply)
    (hchoice : reply.choices = some content :: rest)
    (hparse : w.JSON_parse content = .ok (.object fields)) :
    ∃ r, sentResponse (traceOf (analyze w req)) = some r ∧ r.status = 200 ∧
      r.field "score" = lookupField fields "score" := by
  rcases hmime with hm | hm
  · cases hr : w.readFileSync file.path with
    | error e1 => simp [extractOutcome, hm, hr] at hextract
    | ok bytes =>
      cases hp : w.pdfParse bytes with
      | error e1 => simp [extractOutcome, hm, hr, hp, Except.map] at hextract
      | ok parsed =>
        simp [extractOutcome, hm, hr, hp, Except.map] at hextract
        subst hextract
        cases hU : w.unlinkSync file.path <;>
        simp [traceOf, analyze, analyzeTry, analyzeCatch, emit, tryCatch, send, pendingHeaders,
          run_bind, run_pure, call, attempt, Except.map, Effect.isRespond, hfile, hm, hr, hp,
          hrequest, hcreate, firstContent, hchoice, parseArgument, hparse, JSValue.getProp,
          sentResponse, responses, hU, Response.field, lookupField]
  · cases hr : w.readFileSync file.path with
    | error e1 => simp [extractOutcome, hm, hr, Except.map] at hextract
    | ok bytes =>
      simp [extractOutcome, hm, hr, Except.map] at hextract
      subst hextract
      cases hU : w.unlinkSync file.path <;>
      simp [traceOf, analyze, analyzeTry, analyzeCatch, emit, tryCatch, send, pendingHeaders,
        run_bind, run_pure, call, attempt, Except.map, Effect.isRespond, hfile, hm, hr, hrequest,
        hcreate, firstContent, hchoice, parseArgument, hparse, JSValue.getProp, sentResponse,
        responses, hU, Response.field, lookupField]

theorem analyze_passes_score_through_witness :
    ∃ r, sentResponse (traceOf (analyze overScoreWorld pdfRequest)) = some r ∧ r.status = 200 ∧
      r.field "score" = lookupField [("score", .number "150")] "score" :=
  analyze_passes_score_through overScoreWorld pdfRequest
    { path := "uploads/77c1", mimetype := "application/pdf" } "hi"
    { model := "gpt-4o-mini"
      response_format := "json_object"
      messages :=
        [ { role := "system", content := systemPersona },
          { role := "user", content := userPromptText "Backend Engineer" "hi" } ] }
    { choices := [some "reply"] } "reply" [] [("score", .number "150")]
    rfl (Or.inl rfl) rfl rfl rfl rfl rfl

/-- C4 fails on the code: the upload is deleted on the success path only.
After an unsupported media type, a failed extraction and a failed scoring call
the handler has completed without any call of `fs.unlinkSync`. -/
theorem analyze_leaves_upload_behind :
    fileDeleted sampleWorld (traceOf (analyze sampleWorld textRequest)) "uploads/3f2a" = true ∧
      unlinkCalls (traceOf (analyze sampleWorld imageRequest)) = [] ∧
      fileDeleted sampleWorld (traceOf (analyze sampleWorld imageRequest)) "uploads/9b0d" = false ∧
      unlinkCalls (traceOf (analyze badPdfWorld pdfRequest)) = [] ∧
      fileDeleted badPdfWorld (traceOf (analyze badPdfWorld pdfRequest)) "uploads/77c1" = false ∧
      unlinkCalls (traceOf (analyze scoringDownWorld textRequest)) = [] ∧
      fileDeleted scoringDownWorld (traceOf (analyze scoringDownWorld textRequest))
        "uploads/3f2a" = false :=
  ⟨by decide, rfl, by decide, rfl, by decide, rfl, by decide⟩

/-- C10 fails on the code: when `fs.unlinkSync` throws after the 200 has gone
out, the `catch` block sends again, so the run holds two responses, and the
second attempt itself throws out of the handler. -/
theorem analyze_double_response :
    (responses (traceOf (analyze unlinkFailsWorld textRequest))).map Response.status =
        [200, 500] ∧
      ((analyze unlinkFailsWorld textRequest []).1.toBool = false) :=
  ⟨by decide, by decide⟩

/-! ## `POST /api/download` -/

theorem contentType_valid :
    validHeaderValue
      "application/vnd.openxmlformats-officedocument.wordprocessingml.document" = true := by
  decide

/-- With a truthy `updatedText` the handler never answers 400: it answers 200 or
throws before any response. -/
theorem download_truthy_not_400 (w : World) (req : DownloadRequest)
    (htruthy : (lookupField req.body "updatedText").truthy = true) :
    (sentResponse (traceOf (download w req))).map Response.status ≠ some 400 := by
  cases h1 : w.newParagraph (lookupField req.body "updatedText") with
  | error e =>
    simp [traceOf, download, htruthy, h1, send, call, attempt, run_bind, run_pure,
      sentResponse, responses]
  | ok u =>
    cases h2 : w.newDocument
        { sections := [{ children := [{ text := lookupField req.body "updatedText" }] }] } with
    | error e =>
      simp [traceOf, download, htruthy, h1, h2, send, call, attempt, run_bind, run_pure,
        sentResponse, responses]
    | ok u2 =>
      cases h3 : w.toBuffer
          { sections := [{ children := [{ text := lookupField req.body "updatedText" }] }] } with
      | error e =>
        simp [traceOf, download, htruthy, h1, h2, h3, send, call, attempt, run_bind, run_pure,
          sentResponse, responses]
      | ok buffer =>
        cases h4 : ((lookupField req.body "filename").orElse (.string "Improved_Resume")).toStr with
        | error e =>
          simp [traceOf, download, htruthy, h1, h2, h3, h4, send, call, attempt, run_bind,
            run_pure, sentResponse, responses]
        | ok name =>
          by_cases h5 : validHeaderValue ("attachment; filename=\"" ++ name ++ ".docx\"") = true
          · simp [traceOf, download, htruthy, h1, h2, h3, h4, h5, send, setHeader, call, attempt,
              run_bind, run_pure, sentResponse, responses, Effect.isRespond, contentType_valid,
              pendingHeaders, setHeaderIn]
          · simp [traceOf, download, htruthy, h1, h2, h3, h4, h5, send, setHeader, call, attempt,
              run_bind, run_pure, sentResponse, responses, Effect.isRespond]

/-- C5, as stated, fails: with `updatedText` the string `Hello world` and a
filename holding a line break, `res.setHeader` throws on the header value; the
handler sets no header and sends no response. -/
theorem download_line_break_filename :
    lookupField lineBreakDownload.body "updatedText" = .string "Hello world" ∧
      lookupField lineBreakDownload.body "filename" = .string "a\nb" ∧
      sentResponse (traceOf (download sampleWorld lineBreakDownload)) = none ∧
      pendingHeaders (traceOf (download sampleWorld lineBreakDownload)) = [] ∧
      (download sampleWorld lineBreakDownload []).1.toBool = false :=
  ⟨rfl, rfl, rfl, rfl, rfl⟩

/-- C5, amended: for a non-empty string `updatedText` whose document is built
and serialised, let `F` be the rendering of `filename || "Improved_Resume"`: the
supplied filename when it is a non-empty string, `Improved_Resume` when it is
absent or the empty string.  When the value `attachment; filename="F.docx"`
holds only characters Node accepts in a header, the response is 200 with that
value as `Content-Disposition`, the word-processing `Content-Type` and the
serialised document as body; otherwise the handler sends no response. -/
theorem download_headers (w : World) (req : DownloadRequest) (text F : String)
    (buffer : List Nat)
    (htext : lookupField req.body "updatedText" = .string text) (hne : text ≠ "")
    (hpara : w.newParagraph (.string text) = .ok ())
    (hdoc : w.newDocument { sections := [{ children := [{ text := .string text }] }] } = .ok ())
    (hbuf : w.toBuffer { sections := [{ children := [{ text := .string text }] }] } = .ok buffer)
    (hF : ((lookupField req.body "filename").orElse (.string "Improved_Resume")).toStr = .ok F) :
    sentResponse (traceOf (download w req)) =
        (if validHeaderValue ("attachment; filename=\"" ++ F ++ ".docx\"") = true then
          some
            { status := 200,
              headers :=
                [ ("Content-Disposition", "attachment; filename=\"" ++ F ++ ".docx\""),
                  ("Content-Type",
                    "application/vnd.openxmlformats-officedocument.wordprocessingml.document") ],
              body := .buffer buffer }
        else none) ∧
      (lookupField req.body "filename" = .undefined → F = "Improved_Resume") ∧
      (∀ f, lookupField req.body "filename" = .string f →
        F = if f = "" then "Improved_Resume" else f) := by
  refine ⟨?_, ?_, ?_⟩
  · by_cases hv : validHeaderValue ("attachment; filename=\"" ++ F ++ ".docx\"") = true
    · simp [traceOf, download, htext, hne, hpara, hdoc, hbuf, hF, hv, JSValue.truthy, send,
        setHeader, call, attempt, run_bind, run_pure, sentResponse, responses,
        Effect.isRespond, contentType_valid, pendingHeaders, setHeaderIn]
    · simp [traceOf, download, htext, hne, hpara, hdoc, hbuf, hF, hv, JSValue.truthy, send,
        setHeader, call, attempt, run_bind, run_pure, sentResponse, responses,
        Effect.isRespond]
  · intro h
    rw [h] at hF
    simp [JSValue.orElse, JSValue.truthy, JSValue.toStr] at hF
    exact hF.symm
  · intro f h
    rw [h] at hF
    by_cases hf : f = ""
    · simp [JSValue.orElse, JSValue.truthy, JSValue.toStr, hf] at hF
      simp [hf, hF]
    · simp [JSValue.orElse, JSValue.truthy, JSValue.toStr, hf] at hF
      subst hF
      simp [hf]

theorem download_headers_witness :
    sentResponse (traceOf (download sampleWorld namedDownload)) = some
      { status := 200,
        headers :=
          [ ("Content-Disposition", "attachment; filename=\"MyResume.docx\""),
            ("Content-Type",
              "application/vnd.openxmlformats-officedocument.wordprocessingml.document") ],
        body := .buffer [80, 75, 3, 4] } :=
  (download_headers sampleWorld namedDownload "Hello world" "MyResume" [80, 75, 3, 4]
    rfl (by decide) rfl rfl rfl rfl).1

/-- C6, as stated, fails: an `updatedText` of `0` is neither absent nor the
empty string, and is answered 400 `No text provided`. -/
theorem download_rejects_zero :
    sentResponse (traceOf (download sampleWorld zeroDownload)) = some
        { status := 400, headers := [],
          body := .json (.object [("error", .string "No text provided")]) } ∧
      lookupField zeroDownload.body "updatedText" = .number "0" ∧
      lookupField zeroDownload.body "updatedText" ≠ .undefined ∧
      lookupField zeroDownload.body "updatedText" ≠ .string "" :=
  ⟨rfl, rfl, fun h => JSValue.noConfusion h, fun h => JSValue.noConfusion h⟩

/-- C6, amended: the handler answers 400 `No text provided` exactly when
`updatedText` is absent or falsy (`null`, `false`, a zero or NaN number, the
empty string); in that case no document is built and no header is set. -/
theorem download_no_text (w : World) (req : DownloadRequest) :
    (sentResponse (traceOf (download w req)) = some
        { status := 400, headers := [],
          body := .json (.object [("error", .string "No text provided")]) } ↔
      (lookupField req.body "updatedText" = .undefined ∨
        lookupField req.body "updatedText" = .null ∨
        lookupField req.body "updatedText" = .bool false ∨
        lookupField req.body "updatedText" = .number "0" ∨
        lookupField req.body "updatedText" = .number "NaN" ∨
        lookupField req.body "updatedText" = .string "")) ∧
      (sentResponse (traceOf (download w req)) = some
          { status := 400, headers := [],
            body := .json (.object [("error", .string "No text provided")]) } →
        builtDocuments (traceOf (download w req)) = [] ∧
          pendingHeaders (traceOf (download w req)) = []) := by
  by_cases htruthy : (lookupField req.body "updatedText").truthy = true
  · have hnot := download_truthy_not_400 w req htruthy
    have hno : ¬ sentResponse (traceOf (download w req)) = some
        { status := 400, headers := [],
          body := .json (.object [("error", .string "No text provided")]) } := by
      intro h
      rw [h] at hnot
      exact hnot rfl
    refine ⟨⟨fun h => absurd h hno, fun h => ?_⟩, fun h => absurd h hno⟩
    rcases h with h | h | h | h | h | h <;> rw [h] at htruthy <;>
      simp [JSValue.truthy] at htruthy
  · have hrun : traceOf (download w req) =
        [Effect.respond ⟨400, [], .json (.object [("error", .string "No text provided")])⟩] := by
      simp [traceOf, download, htruthy, send, run_bind, run_pure, pendingHeaders]
    refine ⟨⟨fun _ => ?_, fun _ => ?_⟩, fun _ => ?_⟩
    · cases hv : lookupField req.body "updatedText" with
      | undefined | null => simp
      | bool b => cases b <;> simp [hv, JSValue.truthy] at htruthy ⊢
      | number text =>
        simp [hv, JSValue.truthy] at htruthy
        by_cases h0 : text = "0"
        · simp [h0]
        · simp [htruthy h0]
      | string s =>
        simp [hv, JSValue.truthy] at htruthy
        simpa using htruthy
      | array items | object fields | bare fields => simp [hv, JSValue.truthy] at htruthy
    · rw [hrun]
      rfl
    · rw [hrun]
      exact ⟨rfl, rfl⟩

theorem download_no_text_witness :
    builtDocuments (traceOf (download sampleWorld zeroDownload)) = [] ∧
      pendingHeaders (traceOf (download sampleWorld zeroDownload)) = [] :=
  (download_no_text sampleWorld zeroDownload).2 rfl

/-! ## The scoring request -/

theorem promptRubric_lines : promptRubric =
    "          " ++
      "- 90-100: Resume perfectly matches occupation with strong, measurable achievements." ++
      "\n          " ++
      "- 75-89: Resume is good but missing 1-2 key skills or measurable results." ++
      "\n          " ++
      "- 50-74: Resume shows some relevant experience but lacks multiple important requirements." ++
      "\n          " ++
      "- 25-49: Resume has little relevant experience or skills for the occupation." ++
      "\n          " ++
      "- 0-24: Resume is unrelated to the occupation." ++ "\n" := by
  simp [promptRubric]

theorem userPromptText_parts (occ resume : String) :
    userPromptText occ resume =
      promptIntro ++ ("          " ++
      ("- 90-100: Resume perfectly matches occupation with strong, measurable achievements." ++
      ("\n          " ++
      ("- 75-89: Resume is good but missing 1-2 key skills or measurable results." ++
      ("\n          " ++
      ("- 50-74: Resume shows some relevant experience but lacks multiple important requirements." ++
      ("\n          " ++
      ("- 25-49: Resume has little relevant experience or skills for the occupation." ++
      ("\n          " ++
      ("- 0-24: Resume is unrelated to the occupation." ++ ("\n" ++
      (promptSchema ++ ("Occupation: " ++ (occ ++ ("\n" ++ ("          " ++ ("Resume:" ++
      ("\n" ++ ("          " ++ (resume ++ ("\n" ++ "        "))))))))))))))))))))) := by
  have hlabel : "          Resume:\n" = "          " ++ ("Resume:" ++ "\n") := by decide
  rw [userPromptText, promptRubric_lines, hlabel]
  simp only [String.append_assoc]

theorem occurs_here (needle rest : String) :
    ∃ a b, needle ++ rest = a ++ needle ++ b :=
  ⟨"", rest, by simp⟩

theorem occurs_later (head hay needle : String)
    (h : ∃ a b, hay = a ++ needle ++ b) : ∃ a b, head ++ hay = a ++ needle ++ b := by
  obtain ⟨a, b, e⟩ := h
  exact ⟨head ++ a, b, by rw [e]; simp only [String.append_assoc]⟩

/-- The request built for an occupation that converts to a string. -/
theorem chatRequest_ok (occupation : JSValue) (resumeText occupationText : String)
    (h : occupation.toStr = .ok occupationText) :
    chatRequest occupation resumeText = .ok
      { model := "gpt-4o-mini"
        response_format := "json_object"
        messages :=
          [ { role := "system",
              content := "You are an expert HR recruiter and resume evaluator." },
            { role := "user", content := userPromptText occupationText resumeText } ] } := by
  simp [chatRequest, userPrompt, h, systemPersona]

set_option maxHeartbeats 2000000 in
/-- Once the text is extracted and the request built, the scoring client is
called exactly once, with that request, whatever happens afterwards. -/
theorem analyze_create_call (w : World) (req : AnalyzeRequest) (file : UploadedFile)
    (text : String) (request : ChatRequest) (hfile : req.file = some file)
    (hmime : file.mimetype = "application/pdf" ∨ file.mimetype = "text/plain")
    (hextract : extractOutcome w file = .ok text)
    (hrequest : chatRequest req.occupation text = .ok request) :
    createCalls (traceOf (analyze w req)) = [request] := by
  rcases hmime with hm | hm
  · cases hr : w.readFileSync file.path with
    | error e1 => simp [extractOutcome, hm, hr] at hextract
    | ok bytes =>
      cases hp : w.pdfParse bytes with
      | error e1 => simp [extractOutcome, hm, hr, hp, Except.map] at hextract
      | ok parsedPdf =>
        simp [extractOutcome, hm, hr, hp, Except.map] at hextract
        subst hextract
        cases hc : w.create request with
        | error e1 =>
          simp [traceOf, analyze, analyzeTry, analyzeCatch, emit, tryCatch, send, pendingHeaders,
            run_bind, run_pure, call, attempt, Except.map, Effect.isRespond, createCalls, hfile,
            hm, hr, hp, hrequest, hc]
        | ok reply =>
          cases hf : firstContent reply with
          | error e2 =>
            simp [traceOf, analyze, analyzeTry, analyzeCatch, emit, tryCatch, send,
              pendingHeaders, run_bind, run_pure, call, attempt, Except.map, Effect.isRespond,
              createCalls, hfile, hm, hr, hp, hrequest, hc, hf]
          | ok content =>
            cases hj : w.JSON_parse (parseArgument content) with
            | error e3 =>
              simp [traceOf, analyze, analyzeTry, analyzeCatch, emit, tryCatch, send,
                pendingHeaders, run_bind, run_pure, call, attempt, Except.map, Effect.isRespond,
                createCalls, hfile, hm, hr, hp, hrequest, hc, hf, hj]
            | ok parsed =>
              cases hU : w.unlinkSync file.path <;> cases parsed <;>
              simp [traceOf, analyze, analyzeTry, analyzeCatch, emit, tryCatch, send,
                pendingHeaders, run_bind, run_pure, call, attempt, Except.map, Effect.isRespond,
                createCalls, hfile, hm, hr, hp, hrequest, hc, hf, hj, hU, JSValue.getProp]
  · cases hr : w.readFileSync file.path with
    | error e1 => simp [extractOutcome, hm, hr, Except.map] at hextract
    | ok bytes =>
      simp [extractOutcome, hm, hr, Except.map] at hextract
      subst hextract
      cases hc : w.create request with
      | error e1 =>
        simp [traceOf, analyze, analyzeTry, analyzeCatch, emit, tryCatch, send, pendingHeaders,
          run_bind, run_pure, call, attempt, Except.map, Effect.isRespond, createCalls, hfile,
          hm, hr, hrequest, hc]
      | ok reply =>
        cases hf : firstContent reply with
        | error e2 =>
          simp [traceOf, analyze, analyzeTry, analyzeCatch, emit, tryCatch, send, pendingHeaders,
            run_bind, run_pure, call, attempt, Except.map, Effect.isRespond, createCalls, hfile,
            hm, hr, hrequest, hc, hf]
        | ok content =>
          cases hj : w.JSON_parse (parseArgument content) with
          | error e3 =>
            simp [traceOf, analyze, analyzeTry, analyzeCatch, emit, tryCatch, send,
              pendingHeaders, run_bind, run_pure, call, attempt, Except.map, Effect.isRespond,
              createCalls, hfile, hm, hr, hrequest, hc, hf, hj]
          | ok parsed =>
            cases hU : w.unlinkSync file.path <;> cases parsed <;>
            simp [traceOf, analyze, analyzeTry, analyzeCatch, emit, tryCatch, send,
              pendingHeaders, run_bind, run_pure, call, attempt, Except.map, Effect.isRespond,
              createCalls, hfile, hm, hr, hrequest, hc, hf, hj, hU, JSValue.getProp]

/-- Without an extracted text or without a request the scoring client is not
called. -/
theorem analyze_no_create_call (w : World) (req : AnalyzeRequest) (file : UploadedFile)
    (e : JSError) (hfile : req.file = some file)
    (hmime : file.mimetype = "application/pdf" ∨ file.mimetype = "text/plain")
    (hfail : extractOutcome w file = .error e ∨
      ∃ text, extractOutcome w file = .ok text ∧ chatRequest req.occupation text = .error e) :
    createCalls (traceOf (analyze w req)) = [] := by
  rcases hmime with hm | hm
  · cases hr : w.readFileSync file.path with
    | error e1 =>
      simp [traceOf, analyze, analyzeTry, analyzeCatch, emit, tryCatch, send, pendingHeaders,
        run_bind, run_pure, call, attempt, Except.map, Effect.isRespond, createCalls, hfile, hm,
        hr]
    | ok bytes =>
      cases hp : w.pdfParse bytes with
      | error e1 =>
        simp [traceOf, analyze, analyzeTry, analyzeCatch, emit, tryCatch, send, pendingHeaders,
          run_bind, run_pure, call, attempt, Except.map, Effect.isRespond, createCalls, hfile,
          hm, hr, hp]
      | ok parsedPdf =>
        simp [extractOutcome, hm, hr, hp, Except.map] at hfail
        simp [traceOf, analyze, analyzeTry, analyzeCatch, emit, tryCatch, send, pendingHeaders,
          run_bind, run_pure, call, attempt, Except.map, Effect.isRespond, createCalls, hfile,
          hm, hr, hp, hfail]
  · cases hr : w.readFileSync file.path with
    | error e1 =>
      simp [traceOf, analyze, analyzeTry, analyzeCatch, emit, tryCatch, send, pendingHeaders,
        run_bind, run_pure, call, attempt, Except.map, Effect.isRespond, createCalls, hfile, hm,
        hr]
    | ok bytes =>
      simp [extractOutcome, hm, hr, Except.map] at hfail
      simp [traceOf, analyze, analyzeTry, analyzeCatch, emit, tryCatch, send, pendingHeaders,
        run_bind, run_pure, call, attempt, Except.map, Effect.isRespond, createCalls, hfile, hm,
        hr, hfail]

/-- Every run of the Analyze handler calls the scoring client at most once,
and only with a request of the fixed shape. -/
theorem analyze_create_calls (w : World) (req : AnalyzeRequest) :
    createCalls (traceOf (analyze w req)) = [] ∨
      ∃ occupationText resumeText, createCalls (traceOf (analyze w req)) =
        [ { model := "gpt-4o-mini"
            response_format := "json_object"
            messages :=
              [ { role := "system",
                  content := "You are an expert HR recruiter and resume evaluator." },
                { role := "user",
                  content := userPromptText occupationText resumeText } ] } ] := by
  cases hfile : req.file with
  | none =>
    left
    simp [traceOf, analyze, analyzeTry, hfile, tryCatch, send, pendingHeaders, createCalls]
  | some file =>
    by_cases hp : file.mimetype = "application/pdf"
    · cases hx : extractOutcome w file with
      | error e => exact Or.inl (analyze_no_create_call w req file e hfile (Or.inl hp) (Or.inl hx))
      | ok text =>
        cases ho : req.occupation.toStr with
        | error e =>
          refine Or.inl (analyze_no_create_call w req file e hfile (Or.inl hp)
            (Or.inr ⟨text, hx, ?_⟩))
          simp [chatRequest, userPrompt, ho]
        | ok occupationText =>
          exact Or.inr ⟨occupationText, text, analyze_create_call w req file text _ hfile
            (Or.inl hp) hx (chatRequest_ok req.occupation text occupationText ho)⟩
    · by_cases ht : file.mimetype = "text/plain"
      · cases hx : extractOutcome w file with
        | error e =>
          exact Or.inl (analyze_no_create_call w req file e hfile (Or.inr ht) (Or.inl hx))
        | ok text =>
          cases ho : req.occupation.toStr with
          | error e =>
            refine Or.inl (analyze_no_create_call w req file e hfile (Or.inr ht)
              (Or.inr ⟨text, hx, ?_⟩))
            simp [chatRequest, userPrompt, ho]
          | ok occupationText =>
            exact Or.inr ⟨occupationText, text, analyze_create_call w req file text _ hfile
              (Or.inr ht) hx (chatRequest_ok req.occupation text occupationText ho)⟩
      · left
        simp [traceOf, analyze, analyzeTry, hfile, hp, ht, tryCatch, send, pendingHeaders,
          createCalls, run_bind, run_pure]

/-- C9: for an occupation string and the resume text extracted from the upload,
the handler gives the scoring client exactly one request: the fixed model, the
JSON response mode, and two messages, the system message with the fixed persona
and a user message that is a function of the occupation and the resume text.
That user message holds the five rubric band lines, the occupation right after
`Occupation: `, and the whole resume text after `Resume:`.  Whatever the
request, the model, the response mode and the system message are these. -/
theorem scoring_request_shape (w : World) (req : AnalyzeRequest) (file : UploadedFile)
    (occ resume : String) (hfile : req.file = some file)
    (hmime : file.mimetype = "application/pdf" ∨ file.mimetype = "text/plain")
    (hocc : req.occupation = .string occ)
    (hextract : extractOutcome w file = .ok resume) :
    createCalls (traceOf (analyze w req)) =
        [ { model := "gpt-4o-mini"
            response_format := "json_object"
            messages :=
              [ { role := "system",
                  content := "You are an expert HR recruiter and resume evaluator." },
                { role := "user", content := userPromptText occ resume } ] } ] ∧
      (∃ a b, userPromptText occ resume = a ++
        "- 90-100: Resume perfectly matches occupation with strong, measurable achievements."
        ++ b) ∧
      (∃ a b, userPromptText occ resume = a ++
        "- 75-89: Resume is good but missing 1-2 key skills or measurable results." ++ b) ∧
      (∃ a b, userPromptText occ resume = a ++
        "- 50-74: Resume shows some relevant experience but lacks multiple important requirements."
        ++ b) ∧
      (∃ a b, userPromptText occ resume = a ++
        "- 25-49: Resume has little relevant experience or skills for the occupation." ++ b) ∧
      (∃ a b, userPromptText occ resume = a ++
        "- 0-24: Resume is unrelated to the occupation." ++ b) ∧
      (∃ a b, userPromptText occ resume = a ++ "Occupation: " ++ occ ++ b) ∧
      (∃ a b c, userPromptText occ resume = a ++ "Resume:" ++ b ++ resume ++ c) ∧
      (∀ (w2 : World) (req2 : AnalyzeRequest),
        createCalls (traceOf (analyze w2 req2)) = [] ∨
          ∃ occupationText resumeText, createCalls (traceOf (analyze w2 req2)) =
            [ { model := "gpt-4o-mini"
                response_format := "json_object"
                messages :=
                  [ { role := "system",
                      content := "You are an expert HR recruiter and resume evaluator." },
                    { role := "user",
                      content := userPromptText occupationText resumeText } ] } ]) := by
  refine ⟨?_, ?_, ?_, ?_, ?_, ?_, ?_, ?_, analyze_create_calls⟩
  · refine analyze_create_call w req file resume _ hfile hmime hextract ?_
    rw [hocc]
    exact chatRequest_ok (.string occ) resume occ (by simp [JSValue.toStr])
  · rw [userPromptText_parts]
    iterate 2 apply occurs_later
    exact occurs_here _ _
  · rw [userPromptText_parts]
    iterate 4 apply occurs_later
    exact occurs_here _ _
  · rw [userPromptText_parts]
    iterate 6 apply occurs_later
    exact occurs_here _ _
  · rw [userPromptText_parts]
    iterate 8 apply occurs_later
    exact occurs_here _ _
  · rw [userPromptText_parts]
    iterate 10 apply occurs_later
    exact occurs_here _ _
  · refine ⟨promptIntro ++ promptRubric ++ promptSchema,
      "\n" ++ "          Resume:\n" ++ "          " ++ resume ++ "\n" ++ "        ", ?_⟩
    simp only [userPromptText, String.append_assoc]
  · refine ⟨promptIntro ++ promptRubric ++ promptSchema ++ "Occupation: " ++ occ ++ "\n" ++
      "          ", "\n" ++ "          ", "\n" ++ "        ", ?_⟩
    rw [userPromptText_parts, promptRubric_lines]
    simp only [String.append_assoc]

theorem scoring_request_shape_witness :
    createCalls (traceOf (analyze sampleWorld textRequest)) =
      [ { model := "gpt-4o-mini"
          response_format := "json_object"
          messages :=
            [ { role := "system",
                content := "You are an expert HR recruiter and resume evaluator." },
              { role := "user", content := userPromptText "Backend Engineer" "hi" } ] } ] :=
  (scoring_request_shape sampleWorld textRequest
    { path := "uploads/3f2a", mimetype := "text/plain" } "Backend Engineer" "hi" rfl
    (Or.inr rfl) rfl rfl).1

end ResumeAI
